import Mathlib

/-!
Shallow embedding of the NeuroScale metabolic-calibration app
(`src/JIANZHI.py`) and verification of its specification claims.

Python floats are modelled as exact rationals (`ℚ`); Python `int()` is
truncation toward zero; Python `round(x, 1)` is round-half-to-even at one
decimal.  JSON values coming from the external food database are modelled
by an explicit `JsonVal` type, and Python `dict.get` by lookup in an
association list.
-/

set_option maxHeartbeats 1000000

namespace NeuroScale

/-- Python `int()` applied to a float: truncation toward zero. -/
def pyInt (q : ℚ) : ℤ :=
  if 0 ≤ q then ⌊q⌋ else -⌊-q⌋

/-- Python `round(x)` to the nearest integer, ties to even (banker's rounding). -/
def pyRoundEven (q : ℚ) : ℤ :=
  let f := ⌊q⌋
  let r := q - f
  if r < 1/2 then f
  else if 1/2 < r then f + 1
  else if f % 2 = 0 then f else f + 1

/-- Python `round(x, 1)`: round to one decimal place, ties to even. -/
def pyRound1 (q : ℚ) : ℚ :=
  (pyRoundEven (q * 10) : ℚ) / 10

/-! Part 1. MetabolicEngine (`src/JIANZHI.py`, lines 39–100)
-/

namespace MetabolicEngine

/-- The five fixed activity multipliers (`ACTIVITY_LEVELS`). -/
def ACTIVITY_LEVELS : List (String × ℚ) :=
  [("久坐 (Sedentary)", 1.2),
   ("轻度活跃 (Lightly Active)", 1.375),
   ("中度活跃 (Moderately Active)", 1.55),
   ("高度活跃 (Very Active)", 1.725),
   ("极度活跃 (Extra Active)", 1.9)]

/-- The three fixed goal multipliers (`GOAL_MODIFIERS`). -/
def GOAL_MODIFIERS : List (String × ℚ) :=
  [("精瘦增肌 (Lean Bulk, +10%)", 1.10),
   ("身体重组 (Recomposition, 0%)", 1.0),
   ("减脂 (Cutting, -15%)", 0.85)]

/-- Source `MetabolicEngine.calculate_bmr` (lines 60–71): Mifflin–St Jeor.
`base = 10*w + 6.25*h - 5*age`; `base + 5` if the gender string is `"男"`,
else `base - 161`. -/
def calculate_bmr (weight_kg height_cm age : ℚ) (gender : String) : ℚ :=
  let base := 10 * weight_kg + 6.25 * height_cm - 5 * age
  if gender = "男" then base + 5 else base - 161

/-- One macro row of the dict returned by `partition_macros`:
`{"g": ..., "kcal": ...}` with both values passed through `int()`. -/
structure MacroRow where
  g : ℤ
  kcal : ℤ
  deriving DecidableEq, Repr

/-- The dict returned by `partition_macros` (lines 95–100). -/
structure MacroDict where
  Protein : MacroRow
  Fat : MacroRow
  Carbs : MacroRow
  Total : ℤ
  deriving DecidableEq, Repr

/-- Source `MetabolicEngine.partition_macros` (lines 73–100): protein 2.0 g/kg,
fat 25% of tdee, carbs the residual clamped at 0; `int()` applied only
when building the result dict. -/
def partition_macros (tdee weight_kg : ℚ) : MacroDict :=
  let protein_g := weight_kg * 2.0
  let protein_kcal := protein_g * 4
  let fat_kcal := tdee * 0.25
  let fat_g := fat_kcal / 9
  let remaining_kcal := max 0 (tdee - protein_kcal - fat_kcal)
  let carb_g := remaining_kcal / 4
  let carb_kcal := remaining_kcal
  { Protein := ⟨pyInt protein_g, pyInt protein_kcal⟩
    Fat := ⟨pyInt fat_g, pyInt fat_kcal⟩
    Carbs := ⟨pyInt carb_g, pyInt carb_kcal⟩
    Total := pyInt tdee }

end MetabolicEngine

/-- The calculation pipeline of the "生成计算结果" button in `main`
(lines 194–207): BMR, then TDEE by the activity factor, then the goal
modifier, then the macro partition.  Returns
(bmr, tdee_maintenance, target_calories, macros). -/
def computePipeline (weight height age : ℚ) (gender : String)
    (af goal_mod : ℚ) : ℚ × ℚ × ℚ × MetabolicEngine.MacroDict :=
  let bmr := MetabolicEngine.calculate_bmr weight height age gender
  let tdee_maintenance := bmr * af
  let target_calories := tdee_maintenance * goal_mod
  (bmr, tdee_maintenance, target_calories,
    MetabolicEngine.partition_macros target_calories weight)

/-! Part 2. DataGateway (`src/JIANZHI.py`, lines 106–156)

JSON scalar values from the external food database are modelled by
`JsonVal`; a JSON object is an association list keyed by strings, and
Python `dict.get(key, default)` is `dictGet`.
-/

/-- A scalar JSON value as seen by the cleaning loop: a number, a string,
or null. -/
inductive JsonVal where
  | num (q : ℚ)
  | str (s : String)
  | null
  deriving DecidableEq, Repr

/-- Python `d.get(key, default)` on a JSON object. -/
def dictGet (d : List (String × JsonVal)) (key : String) (dflt : JsonVal) : JsonVal :=
  match d.find? (fun kv => kv.1 == key) with
  | some kv => kv.2
  | none => dflt

/-- Python `key in d` on a JSON object. -/
def dictHas (d : List (String × JsonVal)) (key : String) : Bool :=
  (d.find? (fun kv => kv.1 == key)).isSome

/-- Whether a JSON value is a finite non-negative number. -/
def isNonnegNum : JsonVal → Bool
  | .num q => decide (0 ≤ q)
  | _ => false

/-- One raw item of the `products` array of a search response.
`product_name` and `code` are `none` when the key is absent;
`nutriments` is `none` when the item has no `nutriments` map
(Python reads it with `p.get("nutriments", {})`). -/
structure RawProduct where
  product_name : Option JsonVal
  code : Option JsonVal
  nutriments : Option (List (String × JsonVal))
  deriving DecidableEq, Repr

/-- The cleaned dict appended to `clean_results` (lines 144–151). -/
structure NutrientRecord where
  name : JsonVal
  kcal : JsonVal
  protein : JsonVal
  carbs : JsonVal
  fat : JsonVal
  id : Option JsonVal
  deriving DecidableEq, Repr

/-- Line 143: the filter condition `"energy-kcal_100g" in nutrients`,
where `nutrients = p.get("nutriments", {})` (line 140). -/
def hasEnergy (p : RawProduct) : Bool :=
  dictHas (p.nutriments.getD []) "energy-kcal_100g"

/-- Lines 144–151: build one cleaned entry from a raw product.  Every
nutrient field is read with `nutrients.get(key, 0)`; the display name
with `p.get("product_name", "未知商品")`; the id with `p.get("code")`. -/
def cleanItem (p : RawProduct) : NutrientRecord :=
  let nutrients := p.nutriments.getD []
  { name := p.product_name.getD (.str "未知商品")
    kcal := dictGet nutrients "energy-kcal_100g" (.num 0)
    protein := dictGet nutrients "proteins_100g" (.num 0)
    carbs := dictGet nutrients "carbohydrates_100g" (.num 0)
    fat := dictGet nutrients "fat_100g" (.num 0)
    id := p.code }

/-- The accumulation loop of lines 137–151: start from an empty
`clean_results`, append the cleaned entry of every product that passes
the energy-field check. -/
def processProducts (products : List RawProduct) : List NutrientRecord :=
  products.foldl (fun acc p => if hasEnergy p then acc ++ [cleanItem p] else acc) []

/-- The body of a search response once the status code is 200:
`.json()` can raise (malformed body), and a well-formed body may or may
not carry a `products` array (`data.get("products", [])`, line 134). -/
inductive Payload where
  | malformed
  | json (products : Option (List RawProduct))

/-- Outcome of the `requests.get` call (line 129): either the request
itself raises (timeout, transport error), or an HTTP response with a
status code and a body arrives. -/
inductive HttpOutcome where
  | transportError
  | response (status : Nat) (payload : Payload)

/-- Source `DataGateway.search_product` (lines 112–156) as a function of the
network outcome: any exception is caught and yields `[]`; a non-200
status yields `[]`; otherwise the products are cleaned by the loop. -/
def search_product (out : HttpOutcome) : List NutrientRecord :=
  match out with
  | .transportError => []
  | .response status payload =>
    if status ≠ 200 then []
    else
      match payload with
      | .malformed => []
      | .json productsOpt => processProducts (productsOpt.getD [])

/-- A concrete raw product whose `proteins_100g` value is the string
`"abc"`: present but non-numeric. -/
def rawProductStrProtein : RawProduct :=
  { product_name := some (.str "yogurt")
    code := none
    nutriments := some [("energy-kcal_100g", .num 50), ("proteins_100g", .str "abc")] }

/-! Part 3. Vision tab (`src/JIANZHI.py`, lines 20–33 and 244–256)
-/

/-- One `{label, score}` entry of the classifier's ranked output. -/
structure Pred where
  label : String
  score : ℚ
  deriving DecidableEq, Repr

/-- Python `label.replace("_", " ")` for the single-character pattern:
every underscore becomes a space. -/
def replaceUnderscoreSpace (s : String) : String :=
  ⟨s.data.map (fun c => if c = '_' then ' ' else c)⟩

/-- What the vision tab hands to the display layer. -/
inductive VisionOutcome where
  | crash
  | unavailableMsg
  | shown (label : String) (score : ℚ)
  deriving DecidableEq, Repr

/-- Lines 246–256: if `load_vision_model` returned `None` the tab shows
the error message; otherwise `predictions[0]` is taken (an empty
prediction list would raise an uncaught `IndexError`), its label gets
underscores replaced by spaces, and the pair is displayed. -/
def visionInference {Img : Type} (classifier : Option (Img → List Pred)) (img : Img) :
    VisionOutcome :=
  match classifier with
  | none => .unavailableMsg
  | some f =>
    match f img with
    | [] => .crash
    | p :: _ => .shown (replaceUnderscoreSpace p.label) p.score

/-! Part 4. Portion scaling (`src/JIANZHI.py`, lines 272–290)
-/

/-- The `摄入总量` column of the result table (lines 284–289). -/
structure IntakeRow where
  kcal : ℤ
  protein : ℚ
  carbs : ℚ
  fat : ℚ
  deriving DecidableEq, Repr

/-- Lines 272–289: `ratio = portion / 100.0`; the consumed totals are
`int(kcal*ratio)` and `round(x*ratio, 1)` for the three gram figures. -/
def intakeTotals (kcal protein carbs fat portion : ℚ) : IntakeRow :=
  let ratio := portion / 100.0
  { kcal := pyInt (kcal * ratio)
    protein := pyRound1 (protein * ratio)
    carbs := pyRound1 (carbs * ratio)
    fat := pyRound1 (fat * ratio) }

/-! Helper lemmas -/

theorem pyInt_of_nonneg {q : ℚ} (h : 0 ≤ q) : pyInt q = ⌊q⌋ := by
  simp [pyInt, h]

theorem pyInt_zero : pyInt 0 = 0 := by
  simp [pyInt]

theorem pyRoundEven_intCast (n : ℤ) : pyRoundEven (n : ℚ) = n := by
  unfold pyRoundEven
  simp [Int.floor_intCast]

theorem pyRound1_tenth (n : ℤ) : pyRound1 ((n : ℚ) / 10) = (n : ℚ) / 10 := by
  unfold pyRound1
  rw [div_mul_cancel₀ _ (by norm_num : (10 : ℚ) ≠ 0), pyRoundEven_intCast]

theorem processProducts_go (products : List RawProduct) (acc : List NutrientRecord) :
    products.foldl (fun acc p => if hasEnergy p then acc ++ [cleanItem p] else acc) acc
      = acc ++ (products.filter hasEnergy).map cleanItem := by
  induction products generalizing acc with
  | nil => simp
  | cons p ps ih =>
    by_cases h : hasEnergy p
    · simp [h, ih, List.append_assoc]
    · simp [h, ih]

theorem processProducts_eq (products : List RawProduct) :
    processProducts products = (products.filter hasEnergy).map cleanItem := by
  unfold processProducts
  rw [processProducts_go]
  simp

/-! Claims -/

/-- Claim C1: For every `targetKcal` and every `weightKg > 0`,
`partition_macros` returns `proteinG = int(weightKg * 2.0)` regardless of
`targetKcal`, `fatKcal = int(targetKcal * 0.25)`, and `carbG` equal to the
residual kcal after protein and fat divided by 4, clamped at 0 — so `carbG`
is exactly 0 and never negative whenever `proteinKcal + fatKcal ≥
targetKcal`; gram values are truncated to integers only at the end. -/
theorem C1_partition_macros (tdee weight_kg : ℚ) (hw : 0 < weight_kg) :
    (MetabolicEngine.partition_macros tdee weight_kg).Protein.g = pyInt (weight_kg * 2.0) ∧
    (MetabolicEngine.partition_macros tdee weight_kg).Fat.kcal = pyInt (tdee * 0.25) ∧
    (MetabolicEngine.partition_macros tdee weight_kg).Carbs.g
      = pyInt (max 0 ((tdee - weight_kg * 2.0 * 4 - tdee * 0.25) / 4)) ∧
    (tdee ≤ weight_kg * 2.0 * 4 + tdee * 0.25 →
      (MetabolicEngine.partition_macros tdee weight_kg).Carbs.g = 0) ∧
    0 ≤ (MetabolicEngine.partition_macros tdee weight_kg).Carbs.g := by
  have hmax : ∀ x : ℚ, max 0 x / 4 = max 0 (x / 4) := by
    intro x
    rw [← max_div_div_right (by norm_num : (0:ℚ) ≤ 4), zero_div]
  refine ⟨rfl, rfl, ?_, ?_, ?_⟩
  · show pyInt (max 0 (tdee - weight_kg * 2.0 * 4 - tdee * 0.25) / 4) = _
    rw [hmax]
  · intro hle
    show pyInt (max 0 (tdee - weight_kg * 2.0 * 4 - tdee * 0.25) / 4) = 0
    rw [max_eq_left (by linarith), zero_div, pyInt_zero]
  · show 0 ≤ pyInt (max 0 (tdee - weight_kg * 2.0 * 4 - tdee * 0.25) / 4)
    have h0 : (0:ℚ) ≤ max 0 (tdee - weight_kg * 2.0 * 4 - tdee * 0.25) / 4 :=
      div_nonneg (le_max_left _ _) (by norm_num)
    rw [pyInt_of_nonneg h0]
    exact Int.floor_nonneg.mpr h0

/-- Witness for C1 at `tdee = 2008.5`, `weight_kg = 70`. -/
theorem C1_partition_macros_witness :
    (0 : ℚ) < 70 ∧
    ((MetabolicEngine.partition_macros 2008.5 70).Protein.g = pyInt ((70 : ℚ) * 2.0) ∧
     (MetabolicEngine.partition_macros 2008.5 70).Fat.kcal = pyInt ((2008.5 : ℚ) * 0.25) ∧
     (MetabolicEngine.partition_macros 2008.5 70).Carbs.g
       = pyInt (max 0 ((2008.5 - (70 : ℚ) * 2.0 * 4 - 2008.5 * 0.25) / 4)) ∧
     ((2008.5 : ℚ) ≤ 70 * 2.0 * 4 + 2008.5 * 0.25 →
       (MetabolicEngine.partition_macros 2008.5 70).Carbs.g = 0) ∧
     0 ≤ (MetabolicEngine.partition_macros 2008.5 70).Carbs.g) :=
  ⟨by norm_num, C1_partition_macros 2008.5 70 (by norm_num)⟩

/-- Claim C2 counterexample: At `targetKcal = 100`, `weightKg = 20` (both in
the claimed range: `targetKcal ≥ 0`, `weightKg > 0`) the kcal sum is
`160 + 25 + 0 = 185 > 100 = totalKcal`, so the claimed invariant fails. -/
theorem C2_counterexample :
    ¬ ((MetabolicEngine.partition_macros 100 20).Protein.kcal
        + (MetabolicEngine.partition_macros 100 20).Fat.kcal
        + (MetabolicEngine.partition_macros 100 20).Carbs.kcal
        ≤ (MetabolicEngine.partition_macros 100 20).Total) := by
  simp only [MetabolicEngine.partition_macros]
  norm_num [pyInt]

/-- Claim C2 amended: The invariant `proteinKcal + fatKcal + carbKcal ≤
totalKcal` holds for `targetKcal ≥ 0` and `weightKg > 0` provided protein
and fat alone do not exceed the target (`weightKg*2.0*4 + targetKcal*0.25 ≤
targetKcal`); when they do, carb is clamped to 0 and the sum can exceed
`totalKcal`. -/
theorem C2_invariant_amended (tdee weight_kg : ℚ) (ht : 0 ≤ tdee) (hw : 0 < weight_kg)
    (hfit : weight_kg * 2.0 * 4 + tdee * 0.25 ≤ tdee) :
    (MetabolicEngine.partition_macros tdee weight_kg).Protein.kcal
      + (MetabolicEngine.partition_macros tdee weight_kg).Fat.kcal
      + (MetabolicEngine.partition_macros tdee weight_kg).Carbs.kcal
      ≤ (MetabolicEngine.partition_macros tdee weight_kg).Total := by
  have ha : (0:ℚ) ≤ weight_kg * 2.0 * 4 :=
    mul_nonneg (mul_nonneg hw.le (by norm_num)) (by norm_num)
  have hb : (0:ℚ) ≤ tdee * 0.25 := mul_nonneg ht (by norm_num)
  have hc : (0:ℚ) ≤ tdee - weight_kg * 2.0 * 4 - tdee * 0.25 := by linarith
  show pyInt (weight_kg * 2.0 * 4) + pyInt (tdee * 0.25)
      + pyInt (max 0 (tdee - weight_kg * 2.0 * 4 - tdee * 0.25)) ≤ pyInt tdee
  rw [max_eq_right hc, pyInt_of_nonneg ha, pyInt_of_nonneg hb, pyInt_of_nonneg hc,
    pyInt_of_nonneg ht]
  have f1 := Int.floor_le (weight_kg * 2.0 * 4)
  have f2 := Int.floor_le (tdee * 0.25)
  have f3 := Int.floor_le (tdee - weight_kg * 2.0 * 4 - tdee * 0.25)
  refine Int.le_floor.mpr ?_
  push_cast
  linarith

/-- Witness for C2 (amended) at `tdee = 2008.5`, `weight_kg = 70`. -/
theorem C2_invariant_amended_witness :
    (0 : ℚ) ≤ 2008.5 ∧ (0 : ℚ) < 70 ∧
    (70 : ℚ) * 2.0 * 4 + 2008.5 * 0.25 ≤ 2008.5 ∧
    (MetabolicEngine.partition_macros 2008.5 70).Protein.kcal
      + (MetabolicEngine.partition_macros 2008.5 70).Fat.kcal
      + (MetabolicEngine.partition_macros 2008.5 70).Carbs.kcal
      ≤ (MetabolicEngine.partition_macros 2008.5 70).Total :=
  ⟨by norm_num, by norm_num, by norm_num,
    C2_invariant_amended 2008.5 70 (by norm_num) (by norm_num) (by norm_num)⟩

/-- Claim C4: The profile weight 70 kg, height 175 cm, age 25, male, activity
multiplier 1.2, goal multiplier 1.0 yields BMR 1673.75, TDEE 2008.5,
displayed integer target 2008, and macro grams protein 140 / fat 55 /
carbs 236. -/
theorem C4_end_to_end :
    (computePipeline 70 175 25 "男" 1.2 1.0).1 = 1673.75 ∧
    (computePipeline 70 175 25 "男" 1.2 1.0).2.1 = 2008.5 ∧
    pyInt (computePipeline 70 175 25 "男" 1.2 1.0).2.2.1 = 2008 ∧
    (computePipeline 70 175 25 "男" 1.2 1.0).2.2.2.Protein.g = 140 ∧
    (computePipeline 70 175 25 "男" 1.2 1.0).2.2.2.Fat.g = 55 ∧
    (computePipeline 70 175 25 "男" 1.2 1.0).2.2.2.Carbs.g = 236 := by
  simp only [computePipeline, MetabolicEngine.calculate_bmr,
    MetabolicEngine.partition_macros]
  norm_num [pyInt]

/-- Claim C5: For all weight/height/age, the male variant of `calculate_bmr`
exceeds the female variant by exactly 166 kcal. -/
theorem C5_bmr_gender_offset (w h a : ℚ) :
    MetabolicEngine.calculate_bmr w h a "男"
      - MetabolicEngine.calculate_bmr w h a "女" = 166 := by
  simp only [MetabolicEngine.calculate_bmr, if_true]
  rw [if_neg (by decide : ¬("女" : String) = "男")]
  ring

/-- Claim C10: Any gender string other than the exact marker `"男"` takes the
female branch: `calculate_bmr` returns `base - 161` and is total over
arbitrary gender strings. -/
theorem C10_bmr_non_male_branch (w h a : ℚ) (g : String) (hg : g ≠ "男") :
    MetabolicEngine.calculate_bmr w h a g = 10 * w + 6.25 * h - 5 * a - 161 := by
  simp only [MetabolicEngine.calculate_bmr, if_neg hg]

/-- Witness for C10 at the gender string `"女"`. -/
theorem C10_bmr_non_male_branch_witness :
    ("女" : String) ≠ "男" ∧
    MetabolicEngine.calculate_bmr 70 175 25 "女"
      = 10 * 70 + 6.25 * 175 - 5 * 25 - 161 :=
  ⟨by decide, C10_bmr_non_male_branch 70 175 25 "女" (by decide)⟩

/-- Claim C3 counterexample: The cleaning loop reads nutrient fields with a
plain `dict.get(key, 0)`: for the raw product whose `proteins_100g` value
is the string `"abc"`, the built record's `protein` field is that raw
string — not `0.0`, and not a finite non-negative number. -/
theorem C3_counterexample :
    (cleanItem rawProductStrProtein).protein = .str "abc" ∧
    (cleanItem rawProductStrProtein).protein ≠ .num 0 ∧
    isNonnegNum (cleanItem rawProductStrProtein).protein = false := by
  refine ⟨rfl, ?_, rfl⟩
  simp [cleanItem, dictGet, rawProductStrProtein]

/-- Claim C3 amended: Each nutrient field is read with `dict.get(key, 0)`:
an absent field yields the number 0, a present field's raw value passes
through unchanged (non-numeric and negative values included); the four
record fields are finite non-negative numbers only under the assumption
that every present source value is. -/
theorem C3_field_normalization_amended (nutrients : List (String × JsonVal))
    (key : String) (p : RawProduct) (hn : p.nutriments = some nutrients)
    (hgood : ∀ kv ∈ nutrients, isNonnegNum kv.2 = true) :
    (nutrients.find? (fun kv => kv.1 == key) = none →
      dictGet nutrients key (.num 0) = .num 0) ∧
    (∀ kv, nutrients.find? (fun kv => kv.1 == key) = some kv →
      dictGet nutrients key (.num 0) = kv.2) ∧
    isNonnegNum (cleanItem p).kcal = true ∧
    isNonnegNum (cleanItem p).protein = true ∧
    isNonnegNum (cleanItem p).carbs = true ∧
    isNonnegNum (cleanItem p).fat = true := by
  have hfield : ∀ k : String, isNonnegNum (dictGet nutrients k (.num 0)) = true := by
    intro k
    unfold dictGet
    cases hfind : nutrients.find? (fun kv => kv.1 == k) with
    | none => simp [isNonnegNum]
    | some kv => exact hgood kv (List.mem_of_find?_eq_some hfind)
  refine ⟨?_, ?_, ?_, ?_, ?_, ?_⟩
  · intro h
    unfold dictGet
    rw [h]
  · intro kv h
    unfold dictGet
    rw [h]
  · show isNonnegNum (dictGet (p.nutriments.getD []) "energy-kcal_100g" (.num 0)) = true
    rw [hn]
    exact hfield _
  · show isNonnegNum (dictGet (p.nutriments.getD []) "proteins_100g" (.num 0)) = true
    rw [hn]
    exact hfield _
  · show isNonnegNum (dictGet (p.nutriments.getD []) "carbohydrates_100g" (.num 0)) = true
    rw [hn]
    exact hfield _
  · show isNonnegNum (dictGet (p.nutriments.getD []) "fat_100g" (.num 0)) = true
    rw [hn]
    exact hfield _

/-- Witness for C3 (amended) on a product whose only nutriment is
`energy-kcal_100g = 50`, looked up at the absent key `proteins_100g`. -/
theorem C3_field_normalization_amended_witness :
    (RawProduct.mk (some (.str "yogurt")) none
        (some [("energy-kcal_100g", .num 50)])).nutriments
      = some [("energy-kcal_100g", JsonVal.num 50)] ∧
    (∀ kv ∈ [("energy-kcal_100g", JsonVal.num 50)], isNonnegNum kv.2 = true) ∧
    (([("energy-kcal_100g", JsonVal.num 50)].find?
        (fun kv => kv.1 == "proteins_100g") = none →
      dictGet [("energy-kcal_100g", JsonVal.num 50)] "proteins_100g" (.num 0) = .num 0) ∧
    (∀ kv, [("energy-kcal_100g", JsonVal.num 50)].find?
        (fun kv => kv.1 == "proteins_100g") = some kv →
      dictGet [("energy-kcal_100g", JsonVal.num 50)] "proteins_100g" (.num 0) = kv.2) ∧
    isNonnegNum (cleanItem (RawProduct.mk (some (.str "yogurt")) none
        (some [("energy-kcal_100g", .num 50)]))).kcal = true ∧
    isNonnegNum (cleanItem (RawProduct.mk (some (.str "yogurt")) none
        (some [("energy-kcal_100g", .num 50)]))).protein = true ∧
    isNonnegNum (cleanItem (RawProduct.mk (some (.str "yogurt")) none
        (some [("energy-kcal_100g", .num 50)]))).carbs = true ∧
    isNonnegNum (cleanItem (RawProduct.mk (some (.str "yogurt")) none
        (some [("energy-kcal_100g", .num 50)]))).fat = true) :=
  ⟨rfl, by simp [isNonnegNum],
    C3_field_normalization_amended [("energy-kcal_100g", JsonVal.num 50)]
      "proteins_100g" _ rfl (by simp [isNonnegNum])⟩

/-- Claim C6: `search_product` returns the empty list on a transport error,
on any non-200 response, and on a malformed or products-free payload —
indistinguishable from a genuine empty result set. -/
theorem C6_failures_yield_empty (s : Nat) (hs : s ≠ 200) (pl : Payload) :
    search_product .transportError = [] ∧
    search_product (.response s pl) = [] ∧
    search_product (.response 200 .malformed) = [] ∧
    search_product (.response 200 (.json none)) = [] ∧
    search_product (.response 200 (.json (some []))) = [] := by
  refine ⟨rfl, ?_, rfl, rfl, rfl⟩
  simp only [search_product]
  rw [if_pos hs]

/-- Witness for C6 at status 404 with a malformed payload. -/
theorem C6_failures_yield_empty_witness :
    (404 : Nat) ≠ 200 ∧
    (search_product .transportError = [] ∧
     search_product (.response 404 .malformed) = [] ∧
     search_product (.response 200 .malformed) = [] ∧
     search_product (.response 200 (.json none)) = [] ∧
     search_product (.response 200 (.json (some []))) = []) :=
  ⟨by decide, C6_failures_yield_empty 404 (by decide) .malformed⟩

/-- Claim C7: On a successful response, the result is exactly the cleaning
of the products that declare `energy-kcal_100g`, in the service's order
(a filter followed by a map, no re-ranking); a record is in the result iff
it is the cleaning of such a product; a product without a `product_name`
key gets the fixed placeholder name `"未知商品"`. -/
theorem C7_success_filter_order (products : List RawProduct) (r : NutrientRecord)
    (p : RawProduct) (hname : p.product_name = none) :
    search_product (.response 200 (.json (some products)))
      = (products.filter hasEnergy).map cleanItem ∧
    (r ∈ search_product (.response 200 (.json (some products))) ↔
      ∃ q ∈ products, hasEnergy q = true ∧ r = cleanItem q) ∧
    (cleanItem p).name = .str "未知商品" := by
  have hmain : search_product (.response 200 (.json (some products)))
      = (products.filter hasEnergy).map cleanItem := by
    show processProducts products = _
    exact processProducts_eq products
  refine ⟨hmain, ?_, ?_⟩
  · rw [hmain]
    simp only [List.mem_map, List.mem_filter]
    constructor
    · rintro ⟨a, ⟨hmem, he⟩, hr⟩
      exact ⟨a, hmem, he, hr.symm⟩
    · rintro ⟨q, hmem, he, hr⟩
      exact ⟨q, ⟨hmem, he⟩, hr.symm⟩
  · simp [cleanItem, hname]

/-- Witness for C7 on a two-product list (one with the energy field, one
without a `nutriments` map or a name). -/
theorem C7_success_filter_order_witness :
    (RawProduct.mk none none none).product_name = none ∧
    (search_product (.response 200 (.json (some
        [rawProductStrProtein, RawProduct.mk none none none])))
      = ([rawProductStrProtein, RawProduct.mk none none none].filter hasEnergy).map cleanItem ∧
    (cleanItem rawProductStrProtein ∈ search_product (.response 200 (.json (some
        [rawProductStrProtein, RawProduct.mk none none none]))) ↔
      ∃ q ∈ [rawProductStrProtein, RawProduct.mk none none none],
        hasEnergy q = true ∧ cleanItem rawProductStrProtein = cleanItem q) ∧
    (cleanItem (RawProduct.mk none none none)).name = .str "未知商品") :=
  ⟨rfl, C7_success_filter_order [rawProductStrProtein, RawProduct.mk none none none]
    (cleanItem rawProductStrProtein) (RawProduct.mk none none none) rfl⟩

/-- Claim C8: With a loaded classifier, the vision tab displays exactly the
first (highest-confidence, when the list is ranked) label/score pair, the
label's underscores replaced by spaces; with a failed model load
(`None` classifier) it shows the informational message instead of
crashing. -/
theorem C8_vision_top_prediction {Img : Type} (f : Img → List Pred) (img : Img)
    (p : Pred) (rest : List Pred) (h : f img = p :: rest)
    (hranked : ∀ q ∈ rest, q.score ≤ p.score) :
    visionInference (some f) img = .shown (replaceUnderscoreSpace p.label) p.score ∧
    (∀ q ∈ f img, q.score ≤ p.score) ∧
    visionInference (none : Option (Img → List Pred)) img = .unavailableMsg := by
  refine ⟨?_, ?_, rfl⟩
  · simp only [visionInference, h]
  · intro q hq
    rw [h] at hq
    rcases List.mem_cons.mp hq with hq | hq
    · rw [hq]
    · exact hranked q hq

/-- Witness for C8 on a classifier returning a ranked two-entry list
headed by `"apple_pie"`. -/
theorem C8_vision_top_prediction_witness :
    ((fun _ : Unit => [Pred.mk "apple_pie" 1, Pred.mk "pizza" 0]) ()
      = Pred.mk "apple_pie" 1 :: [Pred.mk "pizza" 0]) ∧
    (∀ q ∈ [Pred.mk "pizza" 0], q.score ≤ (Pred.mk "apple_pie" 1).score) ∧
    (visionInference (some fun _ : Unit => [Pred.mk "apple_pie" 1, Pred.mk "pizza" 0]) ()
        = .shown (replaceUnderscoreSpace "apple_pie") 1 ∧
      (∀ q ∈ (fun _ : Unit => [Pred.mk "apple_pie" 1, Pred.mk "pizza" 0]) (),
        q.score ≤ (Pred.mk "apple_pie" 1).score) ∧
      visionInference (none : Option (Unit → List Pred)) () = .unavailableMsg) :=
  ⟨rfl, by simp, C8_vision_top_prediction _ () (Pred.mk "apple_pie" 1) [Pred.mk "pizza" 0]
    rfl (by simp)⟩

/-- The label of the witness classifier really has its underscore turned
into a space. -/
theorem replaceUnderscoreSpace_apple : replaceUnderscoreSpace "apple_pie" = "apple pie" := rfl

/-- Claim C9 counterexample: Scaling at portion 100 g does not reproduce the
per-100g protein value exactly: the code rounds the gram figures to one
decimal, so a record with `protein = 3.14` comes back as `3.1`. -/
theorem C9_counterexample :
    (intakeTotals 52 3.14 10 4 100).protein ≠ 3.14 := by
  have hv : (intakeTotals 52 3.14 10 4 100).protein = 3.1 := by
    show pyRound1 ((3.14 : ℚ) * (100 / 100.0)) = 3.1
    rw [show (3.14 : ℚ) * (100 / 100.0) = 3.14 by norm_num]
    norm_num [pyRound1, pyRoundEven]
  rw [hv]
  norm_num

/-- Claim C9 amended: Scaling at portion 100 g (ratio 1.0) reproduces the
kcal figure up to integer truncation and the protein/carb/fat figures up
to rounding at one decimal place — hence exactly, whenever those three
values carry at most one decimal. -/
theorem C9_roundtrip_amended (kcal protein carbs fat : ℚ) (np nc nf : ℤ)
    (hp : protein = (np : ℚ) / 10) (hc : carbs = (nc : ℚ) / 10)
    (hf : fat = (nf : ℚ) / 10) :
    intakeTotals kcal protein carbs fat 100 = ⟨pyInt kcal, protein, carbs, fat⟩ := by
  subst hp hc hf
  simp only [intakeTotals]
  rw [show (100 : ℚ) / 100.0 = 1 by norm_num]
  simp only [mul_one]
  rw [pyRound1_tenth, pyRound1_tenth, pyRound1_tenth]

/-- Witness for C9 (amended) at per-100g values 52 kcal / 3.1 g / 10 g /
4 g. -/
theorem C9_roundtrip_amended_witness :
    (3.1 : ℚ) = (31 : ℤ) / 10 ∧ (10 : ℚ) = (100 : ℤ) / 10 ∧ (4 : ℚ) = (40 : ℤ) / 10 ∧
    intakeTotals 52 3.1 10 4 100 = ⟨pyInt 52, 3.1, 10, 4⟩ :=
  ⟨by norm_num, by norm_num, by norm_num,
    C9_roundtrip_amended 52 3.1 10 4 31 100 40 (by norm_num) (by norm_num) (by norm_num)⟩

end NeuroScale
